import Mathlib

/-!
Shallow embedding of the radar-backscatter notebook (bare-soil model,
cloud model, dB/linear conversions) and verification of its specified
properties.

Real-valued numpy arithmetic is embedded over `ℝ`.  The one place where
IEEE-754 special values are observable is `np.log10`, which returns
`-inf` at `0` and `NaN` on negative inputs; its codomain is therefore
embedded as the extended value type `FloatVal` below.  All other
operations used by the notebook (`cos`, `exp`, `10 ** _`) are total and
finite on the inputs the models receive, so they stay in `ℝ`.
-/

/-- Extended value type for the result of `lin2dB` (= `10 * log10 x`):
a finite real, negative infinity (IEEE `log10(0)`), or NaN
(IEEE `log10` of a negative number). -/
inductive FloatVal where
  | fin : ℝ → FloatVal
  | negInf : FloatVal
  | nan : FloatVal

/-- IEEE-style `≤` on `FloatVal`: `-inf` is below every non-NaN value,
finite values compare as reals, and every comparison involving NaN is
false. -/
def FloatVal.le : FloatVal → FloatVal → Prop
  | .negInf, .negInf => True
  | .negInf, .fin _ => True
  | .fin x, .fin y => x ≤ y
  | _, _ => False

/-- Cosine-model parameter C1 (Champion 1996, 5.3 GHz, HH pol). -/
def C1 : ℝ := -29.2

/-- Cosine-model parameter C2. -/
def C2 : ℝ := 27.2

/-- Cosine-model parameter C3 (shape factor). -/
def C3 : ℝ := 2.8

/-- Soil-moisture sensitivity D. -/
def D : ℝ := 0.28

/-- `C_theta = C1 + C2 * np.cos(theta) ** C3` from `bare_soil_model`. -/
noncomputable def C_theta (theta : ℝ) : ℝ := C1 + C2 * Real.cos theta ^ C3

/-- `bare_soil_model(theta, mv)`: returns sigma0_soil in dB. -/
noncomputable def bare_soil_model (theta mv : ℝ) : ℝ := C_theta theta + D * mv

/-- `dB2lin(x) = np.power(10, x/10)`. -/
noncomputable def dB2lin (x : ℝ) : ℝ := (10 : ℝ) ^ (x / 10)

/-- `lin2dB(x) = 10 * np.log10(x)`, with the IEEE behaviour of
`np.log10` at zero and negative inputs made explicit. -/
noncomputable def lin2dB (x : ℝ) : FloatVal :=
  if 0 < x then .fin (10 * Real.logb 10 x)
  else if x = 0 then .negInf
  else .nan

/-- Result type of `cloud_model`: the dictionary with the three entries
"Canopy", "Volume" and "Soil" (scalar case). -/
structure BackscatterResult where
  Canopy : FloatVal
  Volume : FloatVal
  Soil : FloatVal

/-- Local variable `y2 = np.exp(-2*tau/np.cos(theta))` of `cloud_model`
(two-way attenuation factor). -/
noncomputable def y2 (theta tau : ℝ) : ℝ :=
  Real.exp (-2 * tau / Real.cos theta)

/-- Local variable `sigma0_soil_linear = dB2lin(bare_soil_model(theta, smc))`
of `cloud_model`. -/
noncomputable def sigma0_soil_linear (theta smc : ℝ) : ℝ :=
  dB2lin (bare_soil_model theta smc)

/-- `cloud_model(theta, smc, alpha, tau)` on a scalar angle:
`sigma0_can = (3*alpha*cos(theta))/4 * (1-y2) + y2 * sigma0_soil_linear`;
all three entries converted to dB by `lin2dB`. -/
noncomputable def cloud_model (theta smc alpha tau : ℝ) : BackscatterResult :=
  { Canopy := lin2dB ((3 * alpha * Real.cos theta) / 4 * (1 - y2 theta tau)
        + y2 theta tau * sigma0_soil_linear theta smc)
    Volume := lin2dB ((3 * alpha * Real.cos theta) / 4 * (1 - y2 theta tau))
    Soil := lin2dB (y2 theta tau * sigma0_soil_linear theta smc) }

/-- Looks up one named entry of a `BackscatterResult`, mirroring a
Python dictionary access. -/
noncomputable def BackscatterResult.component (r : BackscatterResult) :
    String → FloatVal
  | "Canopy" => r.Canopy
  | "Volume" => r.Volume
  | _ => r.Soil

/-- `cloud_model` applied elementwise to an ordered sequence of angles,
as the numpy-vectorised notebook code does, returning the dictionary as
an ordered key/value list. -/
noncomputable def cloud_model_vec (thetas : List ℝ) (smc alpha tau : ℝ) :
    List (String × List FloatVal) :=
  [("Canopy", thetas.map fun t => (cloud_model t smc alpha tau).Canopy),
   ("Volume", thetas.map fun t => (cloud_model t smc alpha tau).Volume),
   ("Soil", thetas.map fun t => (cloud_model t smc alpha tau).Soil)]

/-- Helper: `lin2dB` inverts `dB2lin`, giving a finite value. -/
theorem lin2dB_dB2lin (x : ℝ) : lin2dB (dB2lin x) = FloatVal.fin x := by
  have hpos : (0 : ℝ) < dB2lin x := Real.rpow_pos_of_pos (by norm_num) _
  rw [lin2dB, if_pos hpos]
  rw [dB2lin, Real.logb_rpow (by norm_num) (by norm_num)]
  ring_nf

/-- Helper: `lin2dB 0` is negative infinity. -/
theorem lin2dB_zero : lin2dB 0 = FloatVal.negInf := by
  rw [lin2dB, if_neg (lt_irrefl 0), if_pos rfl]

/-- Helper: `lin2dB` is monotone on positive linear inputs. -/
theorem lin2dB_le_lin2dB (x yv : ℝ) (hx : 0 < x) (hxy : x ≤ yv) :
    FloatVal.le (lin2dB x) (lin2dB yv) := by
  have hy : 0 < yv := lt_of_lt_of_le hx hxy
  rw [lin2dB, if_pos hx, lin2dB, if_pos hy]
  show (10 : ℝ) * Real.logb 10 x ≤ 10 * Real.logb 10 yv
  have := Real.logb_le_logb_of_le (by norm_num : (1 : ℝ) < 10) hx hxy
  linarith

/-- Helper: dictionary access at "Canopy". -/
theorem component_Canopy (r : BackscatterResult) :
    r.component "Canopy" = r.Canopy := rfl

/-- Helper: dictionary access at "Volume". -/
theorem component_Volume (r : BackscatterResult) :
    r.component "Volume" = r.Volume := rfl

/-- Helper: dictionary access at "Soil". -/
theorem component_Soil (r : BackscatterResult) :
    r.component "Soil" = r.Soil := rfl

/-- C2: `bare_soil_model` is `C_theta + D * mv` with
`C_theta = -29.2 + 27.2 * cos(theta) ^ 2.8` and `D = 0.28`; in
particular at `theta = pi/4` (45 degrees in radians) and `mv = 1` it is
`-29.2 + 27.2 * cos(pi/4) ^ 2.8 + 0.28`. -/
theorem bare_soil_model_formula :
    (∀ theta mv : ℝ, bare_soil_model theta mv
        = -29.2 + 27.2 * Real.cos theta ^ (2.8 : ℝ) + 0.28 * mv)
    ∧ bare_soil_model (Real.pi / 4) 1
        = -29.2 + 27.2 * Real.cos (Real.pi / 4) ^ (2.8 : ℝ) + 0.28 := by
  constructor
  · intro theta mv
    simp [bare_soil_model, C_theta, C1, C2, C3, D]
  · simp [bare_soil_model, C_theta, C1, C2, C3, D]

/-- C3: round-trip identity `lin2dB (dB2lin x) = x` for every real `x`
(the result is the finite value `x`, never `-inf` or NaN, because
`dB2lin x = 10 ^ (x/10) > 0`). -/
theorem lin2dB_dB2lin_roundtrip (x : ℝ) :
    lin2dB (dB2lin x) = FloatVal.fin x :=
  lin2dB_dB2lin x

/-- C6: for fixed `theta`, `bare_soil_model theta mv` is non-decreasing
in `mv`, since the sensitivity constant `D = 0.28` is positive. -/
theorem bare_soil_model_mono (theta mv1 mv2 : ℝ) (h : mv1 ≤ mv2) :
    bare_soil_model theta mv1 ≤ bare_soil_model theta mv2 := by
  unfold bare_soil_model D
  nlinarith

/-- Witness for C6 at `theta = 0`, `mv1 = 0`, `mv2 = 1`. -/
theorem bare_soil_model_mono_witness :
    bare_soil_model 0 0 ≤ bare_soil_model 0 1 :=
  bare_soil_model_mono 0 0 1 (by norm_num)

/-- C1: on the valid domain `cos(theta) > 0`, `cloud_model` returns the
`lin2dB` conversions of exactly `Volume_linear`, `Soil_linear` and
`Canopy_linear = Volume_linear + Soil_linear`, with
`gamma_squared = exp(-2*tau/cos(theta))`. -/
theorem cloud_model_components (theta smc alpha tau : ℝ)
    (h : 0 < Real.cos theta) :
    cloud_model theta smc alpha tau =
      { Canopy := lin2dB (3 * alpha * Real.cos theta / 4
            * (1 - Real.exp (-2 * tau / Real.cos theta))
            + Real.exp (-2 * tau / Real.cos theta)
            * dB2lin (bare_soil_model theta smc))
        Volume := lin2dB (3 * alpha * Real.cos theta / 4
            * (1 - Real.exp (-2 * tau / Real.cos theta)))
        Soil := lin2dB (Real.exp (-2 * tau / Real.cos theta)
            * dB2lin (bare_soil_model theta smc)) } := rfl

/-- Witness for C1 at `theta = 0`, `smc = alpha = tau = 1`. -/
theorem cloud_model_components_witness :
    cloud_model 0 1 1 1 =
      { Canopy := lin2dB (3 * 1 * Real.cos 0 / 4
            * (1 - Real.exp (-2 * 1 / Real.cos 0))
            + Real.exp (-2 * 1 / Real.cos 0)
            * dB2lin (bare_soil_model 0 1))
        Volume := lin2dB (3 * 1 * Real.cos 0 / 4
            * (1 - Real.exp (-2 * 1 / Real.cos 0)))
        Soil := lin2dB (Real.exp (-2 * 1 / Real.cos 0)
            * dB2lin (bare_soil_model 0 1)) } :=
  cloud_model_components 0 1 1 1 (by simp)

/-- C4: with `tau = 0` the attenuation factor is 1, so the Canopy and
Soil entries are exactly `bare_soil_model theta smc` (finite) and the
Volume entry is negative infinity (`Volume_linear = 0`). -/
theorem cloud_model_tau_zero (theta smc alpha : ℝ)
    (h : 0 < Real.cos theta) :
    cloud_model theta smc alpha 0 =
      { Canopy := FloatVal.fin (bare_soil_model theta smc)
        Volume := FloatVal.negInf
        Soil := FloatVal.fin (bare_soil_model theta smc) } := by
  have e1 : y2 theta 0 = 1 := by simp [y2]
  unfold cloud_model
  rw [e1]
  have hC : 3 * alpha * Real.cos theta / 4 * (1 - 1)
      + 1 * sigma0_soil_linear theta smc = sigma0_soil_linear theta smc := by
    ring
  have hV : 3 * alpha * Real.cos theta / 4 * (1 - 1) = (0 : ℝ) := by ring
  have hS : 1 * sigma0_soil_linear theta smc
      = sigma0_soil_linear theta smc := one_mul _
  rw [hC, hV, hS]
  unfold sigma0_soil_linear
  rw [lin2dB_dB2lin, lin2dB_zero]

/-- Witness for C4 at `theta = 0`, `smc = 1`, `alpha = 1`. -/
theorem cloud_model_tau_zero_witness :
    cloud_model 0 1 1 0 =
      { Canopy := FloatVal.fin (bare_soil_model 0 1)
        Volume := FloatVal.negInf
        Soil := FloatVal.fin (bare_soil_model 0 1) } :=
  cloud_model_tau_zero 0 1 1 (by simp)

/-- C5: for a sequence of N angles, the returned dictionary has exactly
the keys "Canopy", "Volume", "Soil" in that order, every value sequence
has length N, and element i of each value sequence is the corresponding
component of the scalar model applied to input angle i. -/
theorem cloud_model_vec_shape (thetas : List ℝ) (smc alpha tau : ℝ) :
    (cloud_model_vec thetas smc alpha tau).map Prod.fst
        = ["Canopy", "Volume", "Soil"]
    ∧ ∀ p ∈ cloud_model_vec thetas smc alpha tau,
        p.2.length = thetas.length
        ∧ ∀ i : ℕ, p.2[i]? = (thetas[i]?).map
            fun t => (cloud_model t smc alpha tau).component p.1 := by
  refine ⟨rfl, ?_⟩
  intro p hp
  simp only [cloud_model_vec, List.mem_cons, List.mem_singleton,
    List.not_mem_nil, or_false] at hp
  rcases hp with rfl | rfl | rfl
  · exact ⟨by simp, fun i => by
      simp [List.getElem?_map, component_Canopy]⟩
  · exact ⟨by simp, fun i => by
      simp [List.getElem?_map, component_Volume]⟩
  · exact ⟨by simp, fun i => by
      simp [List.getElem?_map, component_Soil]⟩

/-- Witness for C5 at the Canopy entry on the one-angle list `[0]`. -/
theorem cloud_model_vec_shape_witness :
    ("Canopy",
      ([(0 : ℝ)].map fun t => (cloud_model t 1 1 1).Canopy)).2.length
      = ([(0 : ℝ)] : List ℝ).length :=
  ((cloud_model_vec_shape [(0 : ℝ)] 1 1 1).2 _
    (by simp [cloud_model_vec])).1

/-- C7: `lin2dB 0` is negative infinity, `lin2dB` of a negative input
is NaN (no guard, no error), and with `alpha = 0` the Volume entry of
`cloud_model` is negative infinity rather than an error. -/
theorem lin2dB_edge_cases :
    lin2dB 0 = FloatVal.negInf
    ∧ (∀ x : ℝ, x < 0 → lin2dB x = FloatVal.nan)
    ∧ (∀ theta smc tau : ℝ, 0 < Real.cos theta →
        (cloud_model theta smc 0 tau).Volume = FloatVal.negInf) := by
  refine ⟨lin2dB_zero, ?_, ?_⟩
  · intro x hx
    rw [lin2dB, if_neg (by linarith), if_neg (by linarith)]
  · intro theta smc tau h
    show lin2dB (3 * 0 * Real.cos theta / 4 * (1 - y2 theta tau))
        = FloatVal.negInf
    have h0 : 3 * (0 : ℝ) * Real.cos theta / 4 * (1 - y2 theta tau) = 0 := by
      ring
    rw [h0, lin2dB_zero]

/-- Witness for C7 at `x = -1` and `theta = 0`, `smc = 1`, `tau = 1`. -/
theorem lin2dB_edge_cases_witness :
    lin2dB (-1) = FloatVal.nan
    ∧ (cloud_model 0 1 0 1).Volume = FloatVal.negInf :=
  ⟨lin2dB_edge_cases.2.1 (-1) (by norm_num),
   lin2dB_edge_cases.2.2 0 1 1 (by simp)⟩

/-- C8: both models are deterministic pure functions: identical
arguments give identical outputs (there is no state outside the return
value in the embedding, which mirrors the source's purity). -/
theorem model_determinism :
    (∀ t t' mv mv' : ℝ, t = t' → mv = mv' →
        bare_soil_model t mv = bare_soil_model t' mv')
    ∧ (∀ t t' s s' a a' u u' : ℝ, t = t' → s = s' → a = a' → u = u' →
        cloud_model t s a u = cloud_model t' s' a' u') := by
  constructor
  · rintro t t' mv mv' rfl rfl
    rfl
  · rintro t t' s s' a a' u u' rfl rfl rfl rfl
    rfl

/-- Witness for C8 at concrete equal arguments. -/
theorem model_determinism_witness :
    bare_soil_model 1 1 = bare_soil_model 1 1
    ∧ cloud_model 1 1 1 1 = cloud_model 1 1 1 1 :=
  ⟨model_determinism.1 1 1 1 1 rfl rfl,
   model_determinism.2 1 1 1 1 1 1 1 1 rfl rfl rfl rfl⟩

/-- C9: the "Volume" value sequence (entry 1 of the dictionary) does not
depend on `smc`, and the "Soil" value sequence (entry 2) does not depend
on `alpha`. -/
theorem cloud_model_noninterference
    (thetas : List ℝ) (smc smc' alpha alpha' tau : ℝ) :
    (cloud_model_vec thetas smc alpha tau)[1]?
        = (cloud_model_vec thetas smc' alpha tau)[1]?
    ∧ (cloud_model_vec thetas smc alpha tau)[2]?
        = (cloud_model_vec thetas smc alpha' tau)[2]? :=
  ⟨rfl, rfl⟩

/-- C10: for `cos theta > 0`, `alpha ≥ 0`, `tau ≥ 0`, the linear-domain
Volume and Soil terms are non-negative, and in dB the Canopy entry is
greater than or equal to both the Volume entry and the Soil entry
(in the IEEE order where -inf is below every finite value). -/
theorem cloud_model_canopy_ge (theta smc alpha tau : ℝ)
    (hcos : 0 < Real.cos theta) (ha : 0 ≤ alpha) (ht : 0 ≤ tau) :
    0 ≤ 3 * alpha * Real.cos theta / 4 * (1 - y2 theta tau)
    ∧ 0 ≤ y2 theta tau * sigma0_soil_linear theta smc
    ∧ FloatVal.le ((cloud_model theta smc alpha tau).Volume)
        ((cloud_model theta smc alpha tau).Canopy)
    ∧ FloatVal.le ((cloud_model theta smc alpha tau).Soil)
        ((cloud_model theta smc alpha tau).Canopy) := by
  have hy2pos : 0 < y2 theta tau := Real.exp_pos _
  have hy2le : y2 theta tau ≤ 1 := by
    rw [y2]
    exact Real.exp_le_one_iff.mpr
      (div_nonpos_iff.mpr (Or.inr ⟨by linarith, hcos.le⟩))
  have hV : 0 ≤ 3 * alpha * Real.cos theta / 4 * (1 - y2 theta tau) :=
    mul_nonneg
      (div_nonneg (mul_nonneg (mul_nonneg (by norm_num) ha) hcos.le)
        (by norm_num))
      (by linarith)
  have hS : 0 < y2 theta tau * sigma0_soil_linear theta smc := by
    apply mul_pos hy2pos
    rw [sigma0_soil_linear, dB2lin]
    exact Real.rpow_pos_of_pos (by norm_num) _
  refine ⟨hV, hS.le, ?_, ?_⟩
  · show FloatVal.le
      (lin2dB (3 * alpha * Real.cos theta / 4 * (1 - y2 theta tau)))
      (lin2dB (3 * alpha * Real.cos theta / 4 * (1 - y2 theta tau)
        + y2 theta tau * sigma0_soil_linear theta smc))
    rcases hV.lt_or_eq with hV0 | hV0
    · exact lin2dB_le_lin2dB _ _ hV0 (by linarith)
    · rw [← hV0, zero_add, lin2dB_zero, lin2dB, if_pos hS]
      exact trivial
  · show FloatVal.le
      (lin2dB (y2 theta tau * sigma0_soil_linear theta smc))
      (lin2dB (3 * alpha * Real.cos theta / 4 * (1 - y2 theta tau)
        + y2 theta tau * sigma0_soil_linear theta smc))
    exact lin2dB_le_lin2dB _ _ hS (by linarith)

/-- Witness for C10 at `theta = 0`, `smc = alpha = tau = 1`. -/
theorem cloud_model_canopy_ge_witness :
    0 ≤ 3 * 1 * Real.cos 0 / 4 * (1 - y2 0 1)
    ∧ 0 ≤ y2 0 1 * sigma0_soil_linear 0 1
    ∧ FloatVal.le ((cloud_model 0 1 1 1).Volume)
        ((cloud_model 0 1 1 1).Canopy)
    ∧ FloatVal.le ((cloud_model 0 1 1 1).Soil)
        ((cloud_model 0 1 1 1).Canopy) :=
  cloud_model_canopy_ge 0 1 1 1 (by simp) (by norm_num) (by norm_num)
